import Mathlib

/-!
Verification development for the RPA_Challenge news-scraping pipeline
(src/tasks.py). The Python source is shallowly embedded: pure helpers
become Lean functions, the stateful task body becomes an explicit
trace-producing function, Python runtime errors (NameError, TypeError)
become an explicit error type.
-/

/-- Model of a Python `datetime` value restricted to its calendar-date
part, which is all that `DateCalculator.calculate` touches. -/
structure PyDate where
  year : Int
  month : Nat
  day : Nat
deriving DecidableEq

/-- Gregorian leap-year rule, as used by Python `datetime` day arithmetic. -/
def isLeapYear (y : Int) : Bool :=
  (y % 4 == 0 && y % 100 != 0) || (y % 400 == 0)

/-- Number of days in a month, as used by Python `datetime` day arithmetic. -/
def daysInMonth (y : Int) (m : Nat) : Nat :=
  if m = 2 then (if isLeapYear y then 29 else 28)
  else if m = 4 ∨ m = 6 ∨ m = 9 ∨ m = 11 then 30
  else 31

/-- Step a date back by one day (the effect of subtracting
`timedelta(days=1)` from a Python date). -/
def predDate (d : PyDate) : PyDate :=
  if 1 < d.day then ⟨d.year, d.month, d.day - 1⟩
  else if 1 < d.month then ⟨d.year, d.month - 1, daysInMonth d.year (d.month - 1)⟩
  else ⟨d.year - 1, 12, 31⟩

/-- `d - timedelta(days=n)`: step the date back `n` days. -/
def subDays (d : PyDate) (n : Nat) : PyDate := predDate^[n] d

/-- The loop body of `DateCalculator.calculate`:
`for _ in range(months): start_date -= timedelta(days=start_date.day)`. -/
def calcLoop : PyDate → Nat → PyDate
  | d, 0 => d
  | d, n + 1 => calcLoop (subDays d d.day) n

/-- `DateCalculator.calculate(actual_date, months)` from src/tasks.py:
`start_date = actual_date.replace(day=1)`, then the day-subtraction loop
runs `months` times (a negative `months` gives an empty `range`, hence
the `Int.toNat`), and the pair `(start_date, actual_date)` is returned. -/
def DateCalculator.calculate (actual_date : PyDate) (months : Int) : PyDate × PyDate :=
  (calcLoop ⟨actual_date.year, actual_date.month, 1⟩ months.toNat, actual_date)

/-- Calendar order on dates (lexicographic on year, month, day). -/
def dateLE (a b : PyDate) : Prop :=
  a.year < b.year ∨
    (a.year = b.year ∧ (a.month < b.month ∨ (a.month = b.month ∧ a.day ≤ b.day)))

instance (a b : PyDate) : Decidable (dateLE a b) := by
  unfold dateLE; infer_instance

/-- The year-month pair one month earlier. -/
def prevMonthPair (y : Int) (m : Nat) : Int × Nat :=
  if 1 < m then (y, m - 1) else (y - 1, 12)

/-- The year-month pair `n` months earlier. -/
def monthsBefore (y : Int) (m : Nat) : Nat → Int × Nat
  | 0 => (y, m)
  | n + 1 => monthsBefore (prevMonthPair y m).1 (prevMonthPair y m).2 n

/-- The last day of the given month. -/
def lastDayOf (y : Int) (m : Nat) : PyDate := ⟨y, m, daysInMonth y m⟩

/-- Lower-case a character list (model of Python `str.lower()`). -/
def lowerStr (s : List Char) : List Char := s.map Char.toLower

/-- Accumulator-based whitespace splitter; models Python `str.split()`
with no argument: split on runs of whitespace, dropping empty pieces. -/
def splitWsAux : List Char → List Char → List (List Char)
  | [], acc => if acc.isEmpty then [] else [acc.reverse]
  | c :: cs, acc =>
    if c.isWhitespace then
      if acc.isEmpty then splitWsAux cs [] else acc.reverse :: splitWsAux cs []
    else splitWsAux cs (c :: acc)

/-- Python `str.split()` with no argument. -/
def splitWs (s : List Char) : List (List Char) := splitWsAux s []

/-- `FoxNewsSearch.phrase_counter(text, phrase)` from src/tasks.py:
tokenize both strings with `.lower().split()`, then
`sum(1 for i in range(len(text_words) - len(phrase_words) + 1)
     if text_words[i:i + len(phrase_words)] == phrase_words)`.
The range bound is Python integer arithmetic, so a phrase longer than the
text gives a nonpositive bound and an empty range (hence the `Int`). -/
def FoxNewsSearch.phrase_counter (text phrase : String) : Nat :=
  let text_words := splitWs (lowerStr text.data)
  let phrase_words := splitWs (lowerStr phrase.data)
  (List.range (((text_words.length : Int) - (phrase_words.length : Int) + 1).toNat)).countP
    (fun i => (text_words.drop i).take phrase_words.length == phrase_words)

/-- Python regex word character (`\w` for ASCII text): letter, digit or
underscore. -/
def isWordChar (c : Char) : Bool := c.isAlphanum || c == '_'

/-- A character allowed by the character class `[\d,]` in the money
regex: a digit or a comma. -/
def digitOrComma (c : Char) : Bool := c.isDigit || c == ','

/-- Matcher for the first alternative of the regex
`\$[\d,]+(?:\.\d+)?` in `FoxNewsSearch.contains_money`: for match
existence this is exactly an adjacent pair of a dollar sign and one
`[\d,]` character (the rest of the pattern is optional). -/
def FoxNewsSearch.containsDollarAmount : List Char → Bool
  | a :: b :: rest =>
    (a == '$' && digitOrComma b) || FoxNewsSearch.containsDollarAmount (b :: rest)
  | _ => false

/-- Literal-list match at the head of a character list. -/
def startsWithChars : List Char → List Char → Bool
  | [], _ => true
  | _ :: _, [] => false
  | a :: as, b :: bs => a == b && startsWithChars as bs

/-- The `\b` condition after the literal `dollars`/`USD`: end of string
or a non-word character. -/
def boundaryAfter : List Char → Bool
  | [] => true
  | c :: _ => !(isWordChar c)

/-- Matcher for `\d+\s*(?:dollars|USD)\b` at the head of the list
(the caller has already checked the head is a digit and that a word
boundary precedes it). Digits and whitespace runs must be maximal here
because neither literal starts with a digit or whitespace, so the
greedy regex run is the only possible one. -/
def moneyWordAt (s : List Char) : Bool :=
  let afterDigits := s.dropWhile Char.isDigit
  let afterSpaces := afterDigits.dropWhile Char.isWhitespace
  (startsWithChars ("dollars").data afterSpaces && boundaryAfter (afterSpaces.drop 7)) ||
  (startsWithChars ("USD").data afterSpaces && boundaryAfter (afterSpaces.drop 3))

/-- Left-to-right scan for the second regex alternative
`\b\d+\s*(?:dollars|USD)\b`; the Bool argument records whether the
previous character was a word character (so `\b` holds at the current
position exactly when it is false, the current character being a digit). -/
def FoxNewsSearch.moneyWordScan : Bool → List Char → Bool
  | _, [] => false
  | prevWord, c :: rest =>
    (!prevWord && c.isDigit && moneyWordAt (c :: rest)) ||
      FoxNewsSearch.moneyWordScan (isWordChar c) rest

/-- `FoxNewsSearch.contains_money(text)` from src/tasks.py: the truth
value of `re.findall` on the raw pattern
`\$[\d,]+(?:\.\d+)?|\b\d+\s*(?:dollars|USD)\b` applied to the text,
i.e. true exactly when either alternative matches somewhere in the text. -/
def FoxNewsSearch.contains_money (text : String) : Bool :=
  FoxNewsSearch.containsDollarAmount text.data ||
    FoxNewsSearch.moneyWordScan false text.data

/-- All suffixes of a list, longest first (positions 0, 1, ...). -/
def suffixes : List Char → List (List Char)
  | [] => [[]]
  | c :: rest => (c :: rest) :: suffixes rest

/-- Head-is-a-digit test for a suffix. -/
def headIsDigit : List Char → Bool
  | [] => false
  | c :: _ => c.isDigit

/-- Positional predicate for the `dollars`/`USD` alternative: a word
boundary before the position, a digit at it, and the rest of the
pattern from there. -/
def moneyPred (p : Bool × List Char) : Bool :=
  !p.1 && headIsDigit p.2 && moneyWordAt p.2

/-- Modelled from the spec sentence for `containsMoney`: a dollar sign
immediately followed by digits (the first following character must be a
digit), or a number followed by `dollars`/`USD` as delimited by word
boundaries. Stated positionally over all positions of the text. -/
def specContainsMoneyOrig (s : List Char) : Bool :=
  ((s.zip s.tail).any (fun p => p.1 == '$' && (p.2).isDigit)) ||
    (((false :: s.map isWordChar).zip (suffixes s)).any moneyPred)

/-- The amended specification: as `specContainsMoneyOrig`, except that
the character immediately after the dollar sign may be a digit or a
comma, matching the character class `[\d,]` actually used by the code. -/
def specContainsMoneyAmended (s : List Char) : Bool :=
  ((s.zip s.tail).any (fun p => p.1 == '$' && digitOrComma p.2)) ||
    (((false :: s.map isWordChar).zip (suffixes s)).any moneyPred)

/-- A spreadsheet cell value, as appended by the task: strings, the
phrase count, and the money flag. -/
inductive Cell where
  | str (s : String)
  | int (n : Nat)
  | bool (b : Bool)
deriving DecidableEq

/-- `ExcelCreator` from src/tasks.py: the filename given to `__init__`
and the active sheet of the fresh `Workbook()`, modelled as the list of
its appended rows. -/
structure ExcelCreator where
  filename : String
  sheet : List (List Cell)
deriving DecidableEq

/-- `ExcelCreator.__init__(filename)`: a fresh workbook whose active
sheet has no rows yet. -/
def ExcelCreator.init (filename : String) : ExcelCreator :=
  ⟨filename, []⟩

/-- `ExcelCreator.create_headers(headers)`: `self.sheet.append(headers)`. -/
def ExcelCreator.create_headers (e : ExcelCreator) (headers : List Cell) : ExcelCreator :=
  { e with sheet := e.sheet ++ [headers] }

/-- `ExcelCreator.add_row(data)`: `self.sheet.append(data)`. -/
def ExcelCreator.add_row (e : ExcelCreator) (data : List Cell) : ExcelCreator :=
  { e with sheet := e.sheet ++ [data] }

/-- `ExcelCreator.save_file()`: serialize the sheet to the output path
built from the filename; modelled as returning the name and the rows
that are written. -/
def ExcelCreator.save_file (e : ExcelCreator) : String × List (List Cell) :=
  (e.filename, e.sheet)

/-- Python runtime errors that the embedded task code can raise. -/
inductive PyError where
  | nameError (n : String)
  | typeError (msg : String)
deriving DecidableEq

/-- An HTTP response as seen by `requests.get(image_url, stream=True)`:
a status code and the raw byte stream. -/
structure HttpResponse where
  status : Nat
  raw : List UInt8
deriving DecidableEq

/-- `FoxNewsSearch.download_image(image_url, filename)` from
src/tasks.py: perform the GET (modelled by the `fetch` function); on
status 200 write the stream to the destination (returned as
`some (filename, bytes)`); on any other status only log, performing no
write (`none`). The function raises nothing in the non-200 branch, so
the result is always `Except.ok`. -/
def FoxNewsSearch.download_image (fetch : String → HttpResponse)
    (image_url filename : String) :
    Except PyError (Option (String × List UInt8)) :=
  let response := fetch image_url
  if response.status = 200 then Except.ok (some (filename, response.raw))
  else Except.ok none

/-- The per-article data extracted by the fixed relative element
lookups inside the article loop of `minimal_task`. -/
structure Article where
  title : String
  date : String
  description : String
  image_src : String
deriving DecidableEq

/-- One pass of the article loop body of `minimal_task`
(src/tasks.py lines 230-256): compute the phrase count on title and
description, the money flag on their concatenation, then evaluate the
f-string `img_{i}.jpg`. The name `i` is never bound anywhere in
`minimal_task`, which `iVal = none` models: evaluating the f-string
raises `NameError`. With `iVal = some i` the download is attempted and
the data row is built. Returns the row, the write performed by the
download (if any), and the attempted destination filename. -/
def articleRow (art : Article) (phrase : String) (iVal : Option Nat)
    (fetch : String → HttpResponse) :
    Except PyError (List Cell × Option (String × List UInt8) × String) :=
  let pc := FoxNewsSearch.phrase_counter art.title phrase +
    FoxNewsSearch.phrase_counter art.description phrase
  let cm := FoxNewsSearch.contains_money (art.title ++ art.description)
  match iVal with
  | none => Except.error (PyError.nameError ("i"))
  | some i =>
    let filename := "img_" ++ toString i ++ ".jpg"
    match FoxNewsSearch.download_image fetch art.image_src filename with
    | Except.error e => Except.error e
    | Except.ok w =>
      Except.ok ([Cell.str art.title, Cell.str art.date, Cell.str art.description,
        Cell.str filename, Cell.int pc, Cell.bool cm], w, filename)

/-- The article loop of `minimal_task`: process articles in discovery
order, collecting the appended rows and the attempted download
filenames, stopping with the error if an iteration raises. -/
def articleLoop (phrase : String) (iVal : Option Nat)
    (fetch : String → HttpResponse) :
    List Article → List (List Cell) × List String × Option PyError
  | [] => ([], [], none)
  | art :: rest =>
    match articleRow art phrase iVal fetch with
    | Except.error e => ([], [], some e)
    | Except.ok (row, _, fname) =>
      let r := articleLoop phrase iVal fetch rest
      (row :: r.1, fname :: r.2.1, r.2.2)

/-- A value in the work-item payload dictionary. -/
inductive PyValue where
  | int (i : Int)
  | str (s : String)
deriving DecidableEq

/-- Python `payload.get(key, default)`. -/
def payloadGet (payload : List (String × PyValue)) (key : String)
    (default : PyValue) : PyValue :=
  match payload.lookup key with
  | some v => v
  | none => default

/-- Python dynamic comparison `a < b`: defined between two ints and
between two strings, a `TypeError` across types. -/
def pyLt (a b : PyValue) : Except PyError Bool :=
  match a, b with
  | PyValue.int x, PyValue.int y => Except.ok (decide (x < y))
  | PyValue.str x, PyValue.str y => Except.ok (decide (x < y))
  | _, _ => Except.error (PyError.typeError ("unsupported comparison between str and int"))

/-- The integer held by a payload value (only consulted on values the
comparison has already established to be ints). -/
def asInt : PyValue → Int
  | PyValue.int i => i
  | PyValue.str _ => 0

/-- The validation prefix of `minimal_task` (src/tasks.py lines
141-151): read `Month` with default the string `0`, test
`date_parameter < 0` with Python dynamic typing, return early on a
negative value (`none`), otherwise continue with
`date_parameter -= 1` (`some` of the decremented value). -/
def minimalTaskValidate (payload : List (String × PyValue)) :
    Except PyError (Option Int) :=
  let date_parameter := payloadGet payload ("Month") (PyValue.str ("0"))
  match pyLt date_parameter (PyValue.int 0) with
  | Except.error e => Except.error e
  | Except.ok true => Except.ok none
  | Except.ok false => Except.ok (some (asInt date_parameter - 1))

/-- Python formatting used at src/tasks.py lines 158-161:
`f"0{n}" if n < 10 else str(n)` for a Nat-valued variable. -/
def pyTwoDigit (n : Nat) : String :=
  if n < 10 then "0" ++ toString n else toString n

/-- The same two-digit formatting applied to the int-valued
`year_index` variable. -/
def pyTwoDigitInt (n : Int) : String :=
  if n < 10 then "0" ++ toString n else toString n

/-- The six list-option identifiers clicked during the date-filter
phase of `minimal_task` (src/tasks.py lines 186-199), in click order:
start month (two-digit, from the computed start date), the literal
`01` for the start day, the literal `2024` for the start year, end
month and end day (two-digit, from the reference date), and
`year_index = (current_year - past_year) + 1` formatted two-digit for
the end year. -/
def dateFilterOptionIds (start_date actual_date : PyDate) : List String :=
  [pyTwoDigit start_date.month,
   "01",
   "2024",
   pyTwoDigit actual_date.month,
   pyTwoDigit actual_date.day,
   pyTwoDigitInt ((actual_date.year - start_date.year) + 1)]

/-- Modelled from the spec sentence for the `Searched` to
`DateFiltered` transition: every option identifier equals the
two-digit month or day string, or the four-digit year string (its
decimal form), derived from the computed window, start date first,
then the reference date. -/
def dateFilterOptionIdsSpec (start_date actual_date : PyDate) : List String :=
  [pyTwoDigit start_date.month,
   pyTwoDigit start_date.day,
   toString start_date.year,
   pyTwoDigit actual_date.month,
   pyTwoDigit actual_date.day,
   toString actual_date.year]

/-- The option identifiers `minimal_task` produces for a payload value
`Month = m`: the code decrements `m` before calling
`DateCalculator.calculate`. -/
def minimalTaskDateOptionIds (ref : PyDate) (m : Int) : List String :=
  let r := DateCalculator.calculate ref (m - 1)
  dateFilterOptionIds r.1 r.2

/-- The pagination loop of `minimal_task` (src/tasks.py lines
207-209): `while not page.is_hidden(load_more): click`. The page is
modelled by `hidden k`, the visibility test observed after `k` clicks;
`fuel` bounds the modelled execution (the code itself has no cap) and
the result is the number of clicks performed, or `none` if the loop is
still running when the fuel runs out. -/
def loadMoreLoop (hidden : Nat → Bool) : Nat → Nat → Option Nat
  | 0, _ => none
  | fuel + 1, clicks =>
    if hidden clicks then some clicks else loadMoreLoop hidden fuel (clicks + 1)

/-- Observable effects of one run of `minimal_task`. -/
structure RunTrace where
  wentToSite : Bool
  optionClicks : List String
  loadMoreClicks : Nat
  downloads : List String
  savedReport : Option (List (List Cell))
deriving DecidableEq

/-- The trace of a run that performed no browser action and produced
no file. -/
def emptyTrace : RunTrace :=
  ⟨false, [], 0, [], none⟩

/-- `minimal_task` from src/tasks.py as a trace-producing function:
validate the payload (early return or `TypeError` as in the source),
compute the date window from the reference date, click through the
search and the six date-filter options, run the pagination loop, and
then evaluate `driver.find_elements(...)` (line 227) - the name
`driver` is not bound anywhere in the function, so the run stops with
a `NameError` before any download or report output. The `Option`
result is `none` only when the model fuel for the pagination loop runs
out. -/
def minimalTaskRun (payload : List (String × PyValue)) (ref : PyDate)
    (hidden : Nat → Bool) (fuel : Nat) :
    Option (RunTrace × Option PyError) :=
  match minimalTaskValidate payload with
  | Except.error e => some (emptyTrace, some e)
  | Except.ok none => some (emptyTrace, none)
  | Except.ok (some months) =>
    let r := DateCalculator.calculate ref months
    let ids := dateFilterOptionIds r.1 r.2
    match loadMoreLoop hidden fuel 0 with
    | none => none
    | some clicks =>
      some ({ wentToSite := true, optionClicks := ids, loadMoreClicks := clicks,
              downloads := [], savedReport := none },
            some (PyError.nameError ("driver")))

theorem dateLE_refl (d : PyDate) : dateLE d d := by
  unfold dateLE; omega

theorem dateLE_trans {a b c : PyDate} (h1 : dateLE a b) (h2 : dateLE b c) :
    dateLE a c := by
  unfold dateLE at *; omega

theorem predDate_le (d : PyDate) : dateLE (predDate d) d := by
  unfold predDate dateLE
  split_ifs <;> simp <;> omega

theorem subDays_le (n : Nat) : ∀ d : PyDate, dateLE (subDays d n) d := by
  induction n with
  | zero => intro d; simpa [subDays] using dateLE_refl d
  | succ n ih =>
    intro d
    have h1 : subDays d (n + 1) = subDays (predDate d) n := by
      simp [subDays, Function.iterate_succ_apply]
    rw [h1]
    exact dateLE_trans (ih (predDate d)) (predDate_le d)

theorem calcLoop_le (n : Nat) : ∀ d : PyDate, dateLE (calcLoop d n) d := by
  induction n with
  | zero => intro d; exact dateLE_refl d
  | succ n ih =>
    intro d
    simp only [calcLoop]
    exact dateLE_trans (ih (subDays d d.day)) (subDays_le d.day d)

theorem predDate_iterate_day (y : Int) (m : Nat) :
    ∀ k d : Nat, k < d → predDate^[k] ⟨y, m, d⟩ = ⟨y, m, d - k⟩ := by
  intro k
  induction k with
  | zero => intro d _; simp
  | succ k ih =>
    intro d hk
    rw [Function.iterate_succ_apply]
    have hd : 1 < d := by omega
    have h1 : predDate ⟨y, m, d⟩ = ⟨y, m, d - 1⟩ := by
      unfold predDate; simp [hd]
    rw [h1, ih (d - 1) (by omega)]
    congr 1
    omega

theorem predDate_first (y : Int) (m : Nat) :
    predDate ⟨y, m, 1⟩ = lastDayOf (prevMonthPair y m).1 (prevMonthPair y m).2 := by
  unfold predDate prevMonthPair lastDayOf
  by_cases hm : 1 < m
  · simp [hm]
  · simp [hm, daysInMonth]

theorem subDays_succ_day (y : Int) (m : Nat) (k : Nat) :
    subDays ⟨y, m, k + 1⟩ (k + 1) =
      lastDayOf (prevMonthPair y m).1 (prevMonthPair y m).2 := by
  have h2 : (k + 1) - k = 1 := by omega
  rw [subDays, Function.iterate_succ_apply',
    predDate_iterate_day y m k (k + 1) (by omega), h2]
  exact predDate_first y m

theorem daysInMonth_pos (y : Int) (m : Nat) : 1 ≤ daysInMonth y m := by
  unfold daysInMonth
  split_ifs <;> omega

theorem calcLoop_lastDay (n : Nat) : ∀ (y : Int) (m : Nat),
    calcLoop (lastDayOf y m) n =
      lastDayOf (monthsBefore y m n).1 (monthsBefore y m n).2 := by
  induction n with
  | zero => intro y m; rfl
  | succ n ih =>
    intro y m
    simp only [calcLoop]
    have hd : (lastDayOf y m).day = daysInMonth y m := rfl
    obtain ⟨k, hk⟩ : ∃ k, daysInMonth y m = k + 1 :=
      ⟨daysInMonth y m - 1, by have := daysInMonth_pos y m; omega⟩
    have hsub : subDays (lastDayOf y m) (lastDayOf y m).day =
        lastDayOf (prevMonthPair y m).1 (prevMonthPair y m).2 := by
      have hL : lastDayOf y m = ⟨y, m, k + 1⟩ := by rw [lastDayOf, hk]
      rw [hd, hk, hL]
      exact subDays_succ_day y m k
    rw [hsub, ih]
    rfl

theorem calcLoop_first (y : Int) (m : Nat) (k : Nat) (h : 1 ≤ k) :
    calcLoop ⟨y, m, 1⟩ k =
      lastDayOf (monthsBefore y m k).1 (monthsBefore y m k).2 := by
  obtain ⟨j, rfl⟩ : ∃ j, k = j + 1 := ⟨k - 1, by omega⟩
  simp only [calcLoop]
  have h1 : subDays ⟨y, m, 1⟩ ((⟨y, m, 1⟩ : PyDate).day) =
      lastDayOf (prevMonthPair y m).1 (prevMonthPair y m).2 := by
    show subDays ⟨y, m, 1⟩ 1 = _
    rw [subDays, Function.iterate_one]
    exact predDate_first y m
  rw [h1, calcLoop_lastDay]
  rfl

/-- C1 counterexample: the claim asserts that the start date returned by
`DateCalculator.calculate` always has day-of-month 1; for
monthsBack = 1 from 2025-01-15 the code returns 2024-12-31, the last
day of the preceding month, not its first day. -/
theorem calculate_start_day_not_one :
    DateCalculator.calculate ⟨2025, 1, 15⟩ 1 = (⟨2024, 12, 31⟩, ⟨2025, 1, 15⟩) ∧
      (DateCalculator.calculate ⟨2025, 1, 15⟩ 1).1.day ≠ 1 := by
  decide

/-- C1 amended: for every reference date (with a valid day-of-month)
and every monthsBack at least 0, `DateCalculator.calculate` returns
`end` equal to the reference date unchanged and `start` at most `end`;
`start` lies in the month monthsBack months before the reference
month; for monthsBack = 0 `start` is the first day of the current
month, but for monthsBack at least 1 `start` is the LAST day of the
month monthsBack months before, not its first day. -/
theorem calculate_amended_spec (actual : PyDate) (months : Int)
    (hd : 1 ≤ actual.day) (hm : 0 ≤ months) :
    (DateCalculator.calculate actual months).2 = actual ∧
    dateLE (DateCalculator.calculate actual months).1 actual ∧
    ((DateCalculator.calculate actual months).1.year,
      (DateCalculator.calculate actual months).1.month) =
      monthsBefore actual.year actual.month months.toNat ∧
    (months = 0 →
      (DateCalculator.calculate actual months).1 = ⟨actual.year, actual.month, 1⟩) ∧
    (1 ≤ months →
      (DateCalculator.calculate actual months).1 =
        lastDayOf (monthsBefore actual.year actual.month months.toNat).1
          (monthsBefore actual.year actual.month months.toNat).2) := by
  refine ⟨rfl, ?_, ?_, ?_, ?_⟩
  · have h1 := calcLoop_le months.toNat ⟨actual.year, actual.month, 1⟩
    have h2 : dateLE ⟨actual.year, actual.month, 1⟩ actual := by
      unfold dateLE; dsimp only; omega
    exact dateLE_trans h1 h2
  · rcases Nat.eq_zero_or_pos months.toNat with h | h
    · simp [DateCalculator.calculate, h, calcLoop, monthsBefore]
    · have hc := calcLoop_first actual.year actual.month months.toNat h
      simp [DateCalculator.calculate, hc, lastDayOf]
  · intro h0
    subst h0
    simp [DateCalculator.calculate, calcLoop]
  · intro h1
    have hk : 1 ≤ months.toNat := by omega
    have hc := calcLoop_first actual.year actual.month months.toNat hk
    simp [DateCalculator.calculate, hc]

/-- C1 witness: at reference date 2025-03-15 with monthsBack = 2 the
amended theorem applies and the start date evaluates to 2025-01-31. -/
theorem calculate_amended_spec_witness :
    ((DateCalculator.calculate ⟨2025, 3, 15⟩ 2).1 =
      lastDayOf (monthsBefore 2025 3 (2 : Int).toNat).1
        (monthsBefore 2025 3 (2 : Int).toNat).2) ∧
    lastDayOf (monthsBefore 2025 3 (2 : Int).toNat).1
      (monthsBefore 2025 3 (2 : Int).toNat).2 = ⟨2025, 1, 31⟩ :=
  ⟨(calculate_amended_spec ⟨2025, 3, 15⟩ 2 (by decide) (by decide)).2.2.2.2 (by decide),
    by decide⟩

/-- C8 counterexample: the claim asserts every date-filter option is
identified by the two-digit month or day string or the four-digit year
string derived from the computed window; at reference date 2024-03-15
with the window computed for one month of stepping, the code clicks the
literal start day 01 (the computed start day is 29) and a two-digit
year index for the end year instead of the four-digit year. -/
theorem date_filter_ids_counterexample :
    dateFilterOptionIds (DateCalculator.calculate ⟨2024, 3, 15⟩ 1).1 ⟨2024, 3, 15⟩ ≠
      dateFilterOptionIdsSpec (DateCalculator.calculate ⟨2024, 3, 15⟩ 1).1 ⟨2024, 3, 15⟩ := by
  decide

/-- C8 amended: for payload Month at least 2, the six option
identifiers clicked by `minimal_task` are: the two-digit month of the
month (Month - 1) months before the reference month; the literal 01
for the start day; the literal 2024 for the start year; the two-digit
reference month and day; and the two-digit value of
(reference year - start year + 1) for the end year, not the four-digit
year string. -/
theorem date_filter_ids_amended (ref : PyDate) (m : Int) (hm : 2 ≤ m) :
    minimalTaskDateOptionIds ref m =
      [pyTwoDigit (monthsBefore ref.year ref.month (m - 1).toNat).2,
       "01", "2024", pyTwoDigit ref.month, pyTwoDigit ref.day,
       pyTwoDigitInt (ref.year - (monthsBefore ref.year ref.month (m - 1).toNat).1 + 1)] := by
  have hk : 1 ≤ (m - 1).toNat := by omega
  have hc := calcLoop_first ref.year ref.month (m - 1).toNat hk
  unfold minimalTaskDateOptionIds DateCalculator.calculate dateFilterOptionIds
  dsimp only
  rw [hc]
  simp [lastDayOf]

/-- C8 witness: at reference date 2024-03-15 with payload Month = 2 the
amended theorem applies; both sides evaluate to the concrete list. -/
theorem date_filter_ids_amended_witness :
    (minimalTaskDateOptionIds ⟨2024, 3, 15⟩ 2 =
      [pyTwoDigit (monthsBefore 2024 3 ((2 : Int) - 1).toNat).2,
       "01", "2024", pyTwoDigit 3, pyTwoDigit 15,
       pyTwoDigitInt (2024 - (monthsBefore 2024 3 ((2 : Int) - 1).toNat).1 + 1)]) ∧
    minimalTaskDateOptionIds ⟨2024, 3, 15⟩ 2 =
      ["02", "01", "2024", "03", "15", "01"] :=
  ⟨date_filter_ids_amended ⟨2024, 3, 15⟩ 2 (by decide), by decide⟩

theorem foldl_add_row (rows : List (List Cell)) :
    ∀ e : ExcelCreator, (rows.foldl ExcelCreator.add_row e).sheet = e.sheet ++ rows := by
  induction rows with
  | nil => intro e; simp
  | cons r rest ih =>
    intro e
    simp only [List.foldl_cons]
    rw [ih]
    simp [ExcelCreator.add_row]

/-- C5: creating headers and then appending N rows before saving yields
a sheet of exactly N + 1 rows, the header row first and the data rows
in append order. -/
theorem excel_round_trip (filename : String) (headers : List Cell)
    (rows : List (List Cell)) :
    ((rows.foldl ExcelCreator.add_row
        ((ExcelCreator.init filename).create_headers headers)).save_file).2 =
      headers :: rows ∧
    ((rows.foldl ExcelCreator.add_row
        ((ExcelCreator.init filename).create_headers headers)).save_file).2.length =
      rows.length + 1 := by
  have h := foldl_add_row rows ((ExcelCreator.init filename).create_headers headers)
  have h2 : ((rows.foldl ExcelCreator.add_row
      ((ExcelCreator.init filename).create_headers headers)).save_file).2 =
      headers :: rows := by
    unfold ExcelCreator.save_file
    rw [h]
    simp [ExcelCreator.init, ExcelCreator.create_headers]
  refine ⟨h2, ?_⟩
  rw [h2]
  simp

/-- C6: when the GET for an image returns any status other than 200,
`download_image` performs no file write and raises nothing, and the
article loop body still produces the full data row (with the intended
filename) for the report. -/
theorem download_non200_no_write :
    (∀ (fetch : String → HttpResponse) (image_url filename : String),
      (fetch image_url).status ≠ 200 →
        FoxNewsSearch.download_image fetch image_url filename = Except.ok none) ∧
    (∀ (art : Article) (phrase : String) (i : Nat) (fetch : String → HttpResponse),
      (fetch art.image_src).status ≠ 200 →
        articleRow art phrase (some i) fetch =
          Except.ok ([Cell.str art.title, Cell.str art.date, Cell.str art.description,
            Cell.str ("img_" ++ toString i ++ ".jpg"),
            Cell.int (FoxNewsSearch.phrase_counter art.title phrase +
              FoxNewsSearch.phrase_counter art.description phrase),
            Cell.bool (FoxNewsSearch.contains_money (art.title ++ art.description))],
            none, "img_" ++ toString i ++ ".jpg")) := by
  constructor
  · intro fetch image_url filename h
    unfold FoxNewsSearch.download_image
    simp [h]
  · intro art phrase i fetch h
    simp [articleRow, FoxNewsSearch.download_image, h]

/-- C6 witness: a stub fetch answering 404 leads to a clean no-write
result. -/
theorem download_non200_no_write_witness :
    FoxNewsSearch.download_image (fun _ => ⟨404, []⟩) ("u") ("img_0.jpg") =
      Except.ok none :=
  download_non200_no_write.1 (fun _ => ⟨404, []⟩) ("u") ("img_0.jpg") (by decide)

/-- C7: a negative integer Month in the payload makes `minimal_task`
log and return before any browser action: the run trace is empty (no
navigation, no option clicks, no downloads, no saved report) and no
exception is raised. -/
theorem negative_month_aborts_early (payload : List (String × PyValue))
    (ref : PyDate) (hidden : Nat → Bool) (fuel : Nat) (m : Int)
    (hMonth : payload.lookup ("Month") = some (PyValue.int m)) (hNeg : m < 0) :
    minimalTaskRun payload ref hidden fuel = some (emptyTrace, none) := by
  unfold minimalTaskRun minimalTaskValidate payloadGet pyLt
  rw [hMonth]
  simp [hNeg]

/-- C7 witness: payload Month = -2 gives the empty trace and a clean
early return. -/
theorem negative_month_aborts_early_witness :
    minimalTaskRun [(("Month"), PyValue.int (-2))] ⟨2024, 1, 1⟩ (fun _ => true) 1 =
      some (emptyTrace, none) :=
  negative_month_aborts_early [(("Month"), PyValue.int (-2))] ⟨2024, 1, 1⟩
    (fun _ => true) 1 (-2) (by decide) (by decide)

/-- C10: with no Month key in the payload the default is the STRING 0,
so the comparison `date_parameter < 0` is a string-int comparison and
the run stops with a TypeError before any date calculation, navigation
or output (the run trace is empty). -/
theorem missing_month_type_error (payload : List (String × PyValue))
    (ref : PyDate) (hidden : Nat → Bool) (fuel : Nat)
    (hMonth : payload.lookup ("Month") = none) :
    minimalTaskRun payload ref hidden fuel =
      some (emptyTrace, some (PyError.typeError
        ("unsupported comparison between str and int"))) := by
  unfold minimalTaskRun minimalTaskValidate payloadGet pyLt
  rw [hMonth]

/-- C10 witness: the empty payload has no Month key and produces the
TypeError outcome with the empty trace. -/
theorem missing_month_type_error_witness :
    minimalTaskRun [] ⟨2024, 1, 1⟩ (fun _ => true) 1 =
      some (emptyTrace, some (PyError.typeError
        ("unsupported comparison between str and int"))) :=
  missing_month_type_error [] ⟨2024, 1, 1⟩ (fun _ => true) 1 (by decide)

theorem loadMoreLoop_reaches (hidden : Nat → Bool) (n : Nat) :
    ∀ fuel start, start ≤ n → (∀ j, start ≤ j → j < n → hidden j = false) →
      hidden n = true → n - start < fuel → loadMoreLoop hidden fuel start = some n := by
  intro fuel
  induction fuel with
  | zero => intro start h1 h2 h3 h4; omega
  | succ fuel ih =>
    intro start h1 h2 h3 h4
    unfold loadMoreLoop
    by_cases hs : start = n
    · subst hs; simp [h3]
    · have hv : hidden start = false := h2 start (Nat.le_refl start) (by omega)
      simp only [hv, Bool.false_eq_true, if_false]
      exact ih (start + 1) (by omega) (fun j hj1 hj2 => h2 j (by omega) hj2) h3 (by omega)

theorem loadMoreLoop_never (hidden : Nat → Bool) (h : ∀ n, hidden n = false) :
    ∀ fuel start, loadMoreLoop hidden fuel start = none := by
  intro fuel
  induction fuel with
  | zero => intro start; rfl
  | succ fuel ih =>
    intro start
    unfold loadMoreLoop
    simp only [h start, Bool.false_eq_true, if_false]
    exact ih (start + 1)

/-- C9: the pagination loop terminates exactly when the Load More
control is eventually hidden: if it is first hidden after n visible
observations the loop performs exactly n clicks and stops (for any
model fuel above n, since the code has no iteration cap), and if it is
never hidden the loop runs forever (no fuel suffices). -/
theorem load_more_termination_iff (hidden : Nat → Bool) :
    (∀ n : Nat, (∀ j, j < n → hidden j = false) → hidden n = true →
      ∀ fuel : Nat, n < fuel → loadMoreLoop hidden fuel 0 = some n) ∧
    ((∀ n : Nat, hidden n = false) → ∀ fuel : Nat, loadMoreLoop hidden fuel 0 = none) := by
  constructor
  · intro n hvis hh fuel hf
    exact loadMoreLoop_reaches hidden n fuel 0 (by omega)
      (fun j _ hj => hvis j hj) hh (by omega)
  · intro h fuel
    exact loadMoreLoop_never hidden h fuel 0

/-- C9 witness: a page hiding the control after 2 clicks makes the loop
stop with exactly 2 clicks; a page never hiding it loops forever. -/
theorem load_more_termination_iff_witness :
    loadMoreLoop (fun n => decide (n = 2)) 5 0 = some 2 ∧
    loadMoreLoop (fun _ => false) 7 0 = none :=
  ⟨(load_more_termination_iff (fun n => decide (n = 2))).1 2 (by decide) (by decide)
      5 (by decide),
    (load_more_termination_iff (fun _ => false)).2 (fun _ => rfl) 7⟩

/-- C4: the claim asserts N image-fetch attempts named img_0 to
img_(N-1); in the code the loop index `i` is never bound, and the
article enumeration itself reads the unbound name `driver`, so a run
reaching extraction stops with a NameError after zero download
attempts, zero rows and no report. The spec design notes record the
sequential index as the intent, making this a code bug. -/
theorem article_loop_name_error :
    articleLoop ("Economy") none (fun _ => ⟨200, []⟩)
      [⟨"t1", "d1", "x1", "u1"⟩, ⟨"t2", "d2", "x2", "u2"⟩, ⟨"t3", "d3", "x3", "u3"⟩] =
      ([], [], some (PyError.nameError ("i"))) ∧
    (minimalTaskRun [(("Month"), PyValue.int 2)] ⟨2024, 5, 20⟩
        (fun n => decide (1 ≤ n)) 5).map
      (fun r => (r.1.downloads, r.1.savedReport, r.2)) =
      some ([], none, some (PyError.nameError ("driver"))) := by
  exact ⟨by decide, by decide⟩

theorem containsDollarAmount_spec (s : List Char) :
    FoxNewsSearch.containsDollarAmount s =
      (s.zip s.tail).any (fun p => p.1 == '$' && digitOrComma p.2) := by
  induction s with
  | nil => rfl
  | cons a rest ih =>
    cases rest with
    | nil => rfl
    | cons b rest2 =>
      simp only [FoxNewsSearch.containsDollarAmount, List.tail_cons,
        List.zip_cons_cons, List.any_cons]
      rw [ih]
      simp only [List.tail_cons]

theorem moneyWordScan_spec : ∀ (s : List Char) (prev : Bool),
    FoxNewsSearch.moneyWordScan prev s =
      ((prev :: s.map isWordChar).zip (suffixes s)).any moneyPred := by
  intro s
  induction s with
  | nil =>
    intro prev
    simp [FoxNewsSearch.moneyWordScan, suffixes, moneyPred, headIsDigit]
  | cons c rest ih =>
    intro prev
    simp only [FoxNewsSearch.moneyWordScan, suffixes, List.map_cons,
      List.zip_cons_cons, List.any_cons]
    rw [ih (isWordChar c)]
    rfl

theorem beq_eq_decide_list (x y : List (List Char)) :
    (x == y) = decide (x = y) := by
  by_cases h : x = y
  · simp [h]
  · simp [h]

theorem countP_take_eq (tw pw : List (List Char)) :
    (List.range (((tw.length : Int) - (pw.length : Int) + 1).toNat)).countP
      (fun i => (tw.drop i).take pw.length == pw) =
    (List.range (tw.length + 1)).countP
      (fun i => decide ((tw.drop i).take pw.length = pw)) := by
  have hfun : (fun i => (tw.drop i).take pw.length == pw) =
      (fun i => decide ((tw.drop i).take pw.length = pw)) := by
    funext i
    exact beq_eq_decide_list _ _
  rw [hfun]
  by_cases hp : pw.length ≤ tw.length
  · have h1 : (((tw.length : Int) - (pw.length : Int) + 1)).toNat =
        tw.length - pw.length + 1 := by omega
    rw [h1]
    have h2 : tw.length + 1 = (tw.length - pw.length + 1) + pw.length := by omega
    conv_rhs => rw [h2, List.range_add]
    rw [List.countP_append, List.countP_map]
    have h3 : (List.range pw.length).countP
        ((fun i => decide ((tw.drop i).take pw.length = pw)) ∘
          (fun x => (tw.length - pw.length + 1) + x)) = 0 := by
      apply List.countP_eq_zero.mpr
      intro j hj
      have hjlt : j < pw.length := List.mem_range.mp hj
      simp only [Function.comp_apply, decide_eq_true_eq]
      intro heq
      have hlen := congrArg List.length heq
      simp only [List.length_take, List.length_drop] at hlen
      omega
    omega
  · have h1 : (((tw.length : Int) - (pw.length : Int) + 1)).toNat = 0 := by omega
    rw [h1]
    simp only [List.range_zero, List.countP_nil]
    symm
    apply List.countP_eq_zero.mpr
    intro i hi
    have hilt : i < tw.length + 1 := List.mem_range.mp hi
    simp only [decide_eq_true_eq]
    intro heq
    have hlen := congrArg List.length heq
    simp only [List.length_take, List.length_drop] at hlen
    omega

/-- C2: `phrase_counter` equals the number of start positions (over all
positions of the tokenized, lower-cased text) at which the tokenized,
lower-cased phrase occurs as a contiguous token run; it is 0 whenever
the phrase has more tokens than the text; and the two concrete examples
of the claim hold. -/
theorem phrase_counter_spec_correct :
    (∀ text phrase : String,
      FoxNewsSearch.phrase_counter text phrase =
        (List.range ((splitWs (lowerStr text.data)).length + 1)).countP
          (fun i => decide (((splitWs (lowerStr text.data)).drop i).take
            (splitWs (lowerStr phrase.data)).length =
              splitWs (lowerStr phrase.data)))) ∧
    (∀ text phrase : String,
      (splitWs (lowerStr text.data)).length < (splitWs (lowerStr phrase.data)).length →
        FoxNewsSearch.phrase_counter text phrase = 0) ∧
    FoxNewsSearch.phrase_counter ("The Economy is growing the economy") ("economy") = 2 ∧
    FoxNewsSearch.phrase_counter ("economyboom") ("economy") = 0 := by
  refine ⟨?_, ?_, by decide, by decide⟩
  · intro text phrase
    show (List.range ((((splitWs (lowerStr text.data)).length : Int) -
        ((splitWs (lowerStr phrase.data)).length : Int) + 1).toNat)).countP
      (fun i => ((splitWs (lowerStr text.data)).drop i).take
        (splitWs (lowerStr phrase.data)).length == splitWs (lowerStr phrase.data)) = _
    exact countP_take_eq _ _
  · intro text phrase h
    show (List.range ((((splitWs (lowerStr text.data)).length : Int) -
        ((splitWs (lowerStr phrase.data)).length : Int) + 1).toNat)).countP
      (fun i => ((splitWs (lowerStr text.data)).drop i).take
        (splitWs (lowerStr phrase.data)).length == splitWs (lowerStr phrase.data)) = 0
    have h1 : ((((splitWs (lowerStr text.data)).length : Int) -
        ((splitWs (lowerStr phrase.data)).length : Int) + 1)).toNat = 0 := by omega
    rw [h1]
    rfl

/-- C2 witness: a phrase with more tokens than the text gives count 0
via the theorem. -/
theorem phrase_counter_spec_correct_witness :
    (splitWs (lowerStr ("a b").data)).length <
        (splitWs (lowerStr ("a b c").data)).length ∧
    FoxNewsSearch.phrase_counter ("a b") ("a b c") = 0 :=
  ⟨by decide, phrase_counter_spec_correct.2.1 ("a b") ("a b c") (by decide)⟩

/-- C3 counterexample: the claim requires a digit immediately after the
dollar sign, but the regex class `[\d,]+` also accepts a comma, so the
code returns true on a text whose dollar sign is followed only by a
comma, which the claimed condition rejects. -/
theorem contains_money_comma_counterexample :
    FoxNewsSearch.contains_money ("$,") = true ∧
      specContainsMoneyOrig ("$,").data = false := by
  decide

/-- C3 amended: `contains_money` is true exactly when the text has a
dollar sign immediately followed by a digit-or-comma character, or a
number followed (after optional whitespace) by dollars or USD
delimited by word boundaries; the three concrete examples of the claim
hold. -/
theorem contains_money_amended_spec :
    (∀ text : String,
      FoxNewsSearch.contains_money text = specContainsMoneyAmended text.data) ∧
    FoxNewsSearch.contains_money ("Prices rose to $1,200.50 today") = true ∧
    FoxNewsSearch.contains_money ("I have 500 dollars") = true ∧
    FoxNewsSearch.contains_money ("There were 500 people") = false := by
  refine ⟨?_, by decide, by decide, by decide⟩
  intro text
  unfold FoxNewsSearch.contains_money specContainsMoneyAmended
  rw [containsDollarAmount_spec, moneyWordScan_spec]
